import Mathlib

/-!
Verification of the `quick-git-hooks` command-line tool
(`src/quick_git_hooks/cli.py`, `src/quick_git_hooks/utils.py`).

Shallow embedding: file contents are `List Char`; the surrounding
filesystem and PATH are explicit records (`FS`, `Env`); every
`click.echo` / `click.secho` call is one constructor of the `Msg`
type; `sys.exit` is an explicit exit code in the result record.
-/

set_option maxRecDepth 16000

/-- Boolean test that `p` is a prefix of `s` (over `List Char`). -/
def isPre : List Char → List Char → Bool
  | [], _ => true
  | _ :: _, [] => false
  | a :: as, b :: bs => a == b && isPre as bs

/-- The Python `sub in s` substring test. -/
def containsSub (sub : List Char) : List Char → Bool
  | [] => sub.isEmpty
  | b :: bs => isPre sub (b :: bs) || containsSub sub bs

/-- Fuel-driven worker for `pySplit`.  `acc` holds (reversed) the characters
of the current chunk.  The fuel is structural so that the kernel can
evaluate the function; `pySplit` supplies enough fuel that the fuel-0
branch is never reached. -/
def splitAux (sep : List Char) : Nat → List Char → List Char → List (List Char)
  | 0, s, acc => [acc.reverse ++ s]
  | _ + 1, [], acc => [acc.reverse]
  | fuel + 1, d :: ds, acc =>
    if isPre sep (d :: ds) then
      acc.reverse :: splitAux sep fuel ((d :: ds).drop sep.length) []
    else
      splitAux sep fuel ds (d :: acc)

/-- The Python `s.split(sep)` for a non-empty separator (the only way the
source calls it); splits at every non-overlapping occurrence of `sep`,
leftmost first. -/
def pySplit (sep s : List Char) : List (List Char) :=
  match sep with
  | [] => [s]
  | _ :: _ => splitAux sep (s.length + 1) s []

/-- Worker for `globMatch`: `globStar f s` is true iff `f` accepts some
suffix of `s` (the semantics of `*` in a glob). -/
def globStar (f : List Char → Bool) : List Char → Bool
  | [] => f []
  | c :: cs => f (c :: cs) || globStar f cs

/-- Glob matching as used by `Path(".").glob(pattern)` for the patterns in
this code base: literal characters plus `*` (which matches any, possibly
empty, run of characters).  The source only uses the patterns
`.prettierrc.*` and `.eslintrc.*`, which contain no other glob syntax. -/
def globMatch : List Char → List Char → Bool
  | [], s => s.isEmpty
  | '*' :: ps, s => globStar (globMatch ps) s
  | p :: ps, s =>
    match s with
    | [] => false
    | c :: cs => p == c && globMatch ps cs

/-! ### Constants from `utils.py` -/

/-- The `TARGET_CONFIG_FILE = Path(".pre-commit-config.yaml")`. -/
def TARGET_CONFIG_FILE : String := ".pre-commit-config.yaml"

/-- The `PRETTIERRC_GLOB = ".prettierrc.*"`. -/
def PRETTIERRC_GLOB : String := ".prettierrc.*"

/-- The `ESLINTRC_GLOB = ".eslintrc.*"`. -/
def ESLINTRC_GLOB : String := ".eslintrc.*"

/-- The `HOOK_TYPES = ["pre-commit", "commit-msg", "pre-push"]`. -/
def HOOK_TYPES : List String := ["pre-commit", "commit-msg", "pre-push"]

/-- One entry of the `PYTHON_TOOLS` / `JS_TOOLS` dictionaries. -/
structure ToolInfo where
  command : String
  install : String
  packages : List String
deriving DecidableEq

/-- The `PYTHON_TOOLS` dictionary (iteration order is insertion order). -/
def PYTHON_TOOLS : List (String × ToolInfo) :=
  [("black", ⟨"black", "pip install black", ["black"]⟩),
   ("flake8", ⟨"flake8", "pip install flake8", ["flake8"]⟩),
   ("isort", ⟨"isort", "pip install isort", ["isort"]⟩),
   ("commitizen", ⟨"cz", "pip install commitizen", ["commitizen"]⟩)]

/-- The `JS_TOOLS` dictionary. -/
def JS_TOOLS : List (String × ToolInfo) :=
  [("prettier", ⟨"prettier", "npm install -g prettier", ["prettier"]⟩),
   ("eslint",
    ⟨"eslint",
     "npm install -g eslint @typescript-eslint/parser @typescript-eslint/eslint-plugin",
     ["eslint", "@typescript-eslint/parser", "@typescript-eslint/eslint-plugin"]⟩)]

/-- Marker splitting off the JS/TS hook section in `_copy_config`
(`"\n  # JavaScript/TypeScript specific hooks"`). -/
def jsMarker : List Char := "\n  # JavaScript/TypeScript specific hooks".data

/-- Marker starting the branch-naming section in `_copy_config`
(`"\n  # Branch naming convention"`). -/
def branchMarker : List Char := "\n  # Branch naming convention".data

/-- First content marker of `check_hook_installed`: `"pre-commit"`. -/
def preCommitMarker : List Char := "pre-commit".data

/-- Second content marker of `check_hook_installed`:
`"File generated by pre-commit:"`. -/
def generatedMarker : List Char := "File generated by pre-commit:".data

/-- Third content marker of `check_hook_installed`: `"INSTALL_PYTHON"`. -/
def installPythonMarker : List Char := "INSTALL_PYTHON".data

/-- Name of the default ESLint config created by `_copy_config`
(`Path(".eslintrc.json")`). -/
def ESLINTRC_NAME : List Char := ".eslintrc.json".data

/-- Name of the default Prettier config created by `_copy_config`
(`Path(".prettierrc")`). -/
def PRETTIERRC_NAME : List Char := ".prettierrc".data

/-- Modelled from the spec: the bundled configuration template
`templates/.pre-commit-config.yaml` is not under `src/`; per the spec it
is an opaque YAML document that contains a JS/TS-specific hook section
introduced by the JS/TS section marker line and terminated by the
branch-naming section marker line.  A representative such document. -/
def templateContent : List Char :=
  ("repos:\n  - repo: local\n    hooks:\n      - id: black\n  # JavaScript/TypeScript specific hooks\n  - repo: local\n    hooks:\n      - id: eslint\n  # Branch naming convention\n  - repo: local\n    hooks:\n      - id: branch-name\n").data

/-! ### Environment and filesystem state -/

/-- Ambient machine state read through subprocesses and package data:
which commands resolve on PATH (`command_exists`), which invocations of
`run_command` succeed, the bundled template (`none` models a read
failure, i.e. an exception from `importlib.resources` / `read_text`),
and whether each of the three `write_text` calls in `_copy_config`
succeeds (`false` models an `OSError`-style exception at that write). -/
structure Env where
  cmdExists : String → Bool
  runOk : List String → Bool
  template : Option (List Char)
  writeTargetOk : Bool
  writeEslintOk : Bool
  writePrettierOk : Bool

/-- Working-directory state.  `targetConfig` is the content of
`.pre-commit-config.yaml` (`none` = absent); `dotfiles` are the names of
the other entries of the working directory that the glob probes can see;
`hookFiles t` is the state of `.git/hooks/t`: `none` = no file,
`some none` = present but unreadable as text, `some (some c)` = readable
with content `c`. -/
structure FS where
  gitDir : Bool
  packageJson : Bool
  targetConfig : Option (List Char)
  dotfiles : List (List Char)
  hookFiles : String → Option (Option (List Char))

/-! ### Probe functions from `utils.py` -/

/-- The `is_git_repo`: `.git` is a directory. -/
def is_git_repo (fs : FS) : Bool := fs.gitDir

/-- The `command_exists`: shells out to `which`/`where`; abstracted into the
environment record. -/
def command_exists (env : Env) (c : String) : Bool := env.cmdExists c

/-- The `find_config_file`: `bool(list(Path(".").glob(glob_pattern)))`. -/
def find_config_file (fs : FS) (pat : String) : Bool :=
  fs.dotfiles.any (fun f => globMatch pat.data f)

/-- The `check_hook_installed`: the hook file must exist, be readable as
text, and contain all three markers; any read failure yields `false`. -/
def check_hook_installed (fs : FS) (hook_type : String) : Bool :=
  match fs.hookFiles hook_type with
  | some (some content) =>
    containsSub preCommitMarker content && containsSub generatedMarker content &&
      containsSub installPythonMarker content
  | _ => false

/-! ### Printed messages

One constructor per `click.echo` / `click.secho` call site in `cli.py`
(the literal texts, colored with the `fg` recorded by `msgColor` below,
are kept in the source; constructors carry the interpolated values).
`runEcho` stands for whatever `run_command` itself prints (captured
stdout/stderr echoes on success, the error report on failure). -/
inductive Msg where
  | startSetup
  | notGitRepoSetup
  | gitRepoDetectedSetup
  | configExistsSkip
  | skipConfigCreation
  | copyConfigFailed
  | noPackageJsonInfo
  | createdEslintrc
  | createdPrettierrc
  | copiedConfig (overwrote : Bool)
  | installingCommitizen
  | failedInstallCommitizen
  | installedCommitizen
  | installingHooksHeader
  | preCommitNotFoundSetup
  | installingHookType (t : String)
  | failedInstallHookType (t : String)
  | runEcho (cmd : List String) (ok : Bool)
  | failedCreateConfigAbort
  | failedInstallHooksAbort
  | instrHeader
  | checkingToolsInfo
  | pyToolsHeader
  | pyToolMissingInstr (tool : String)
  | pyToolsFooter
  | jsToolsHeader
  | jsToolsFooter
  | jsToolsAllPresent1
  | jsToolsAllPresent2
  | noPackageJsonSkipJs
  | verifyTip
  | setupComplete
  | hooksInstalledNote
  | tipCustomize1
  | tipCustomize2
  | notGitRepoCheck
  | gitRepoDetectedCheck
  | preCommitFound
  | preCommitNotFound
  | configFound
  | configNotFound
  | hookFound (t : String)
  | hookMissing (t : String)
  | allHooksInstalled
  | toolFound (t : String)
  | toolMissing (t : String)
  | jsToolMissing (t : String)
  | prettierConfigMissing
  | eslintConfigMissing
  | checkingJsTools
  | skipJsToolsCheck

/-- Tag-and-payload encoding of `Msg`, used to define a decidable
equality whose term stays small (the derived instance produces one huge
case split). -/
def Msg.enc : Msg → Nat × String × List String × Bool
  | .startSetup => (0, "", [], false)
  | .notGitRepoSetup => (1, "", [], false)
  | .gitRepoDetectedSetup => (2, "", [], false)
  | .configExistsSkip => (3, "", [], false)
  | .skipConfigCreation => (4, "", [], false)
  | .copyConfigFailed => (5, "", [], false)
  | .noPackageJsonInfo => (6, "", [], false)
  | .createdEslintrc => (7, "", [], false)
  | .createdPrettierrc => (8, "", [], false)
  | .copiedConfig b => (9, "", [], b)
  | .installingCommitizen => (10, "", [], false)
  | .failedInstallCommitizen => (11, "", [], false)
  | .installedCommitizen => (12, "", [], false)
  | .installingHooksHeader => (13, "", [], false)
  | .preCommitNotFoundSetup => (14, "", [], false)
  | .installingHookType t => (15, t, [], false)
  | .failedInstallHookType t => (16, t, [], false)
  | .runEcho c ok => (17, "", c, ok)
  | .failedCreateConfigAbort => (18, "", [], false)
  | .failedInstallHooksAbort => (19, "", [], false)
  | .instrHeader => (20, "", [], false)
  | .checkingToolsInfo => (21, "", [], false)
  | .pyToolsHeader => (22, "", [], false)
  | .pyToolMissingInstr t => (23, t, [], false)
  | .pyToolsFooter => (24, "", [], false)
  | .jsToolsHeader => (25, "", [], false)
  | .jsToolsFooter => (26, "", [], false)
  | .jsToolsAllPresent1 => (27, "", [], false)
  | .jsToolsAllPresent2 => (28, "", [], false)
  | .noPackageJsonSkipJs => (29, "", [], false)
  | .verifyTip => (30, "", [], false)
  | .setupComplete => (31, "", [], false)
  | .hooksInstalledNote => (32, "", [], false)
  | .tipCustomize1 => (33, "", [], false)
  | .tipCustomize2 => (34, "", [], false)
  | .notGitRepoCheck => (35, "", [], false)
  | .gitRepoDetectedCheck => (36, "", [], false)
  | .preCommitFound => (37, "", [], false)
  | .preCommitNotFound => (38, "", [], false)
  | .configFound => (39, "", [], false)
  | .configNotFound => (40, "", [], false)
  | .hookFound t => (41, t, [], false)
  | .hookMissing t => (42, t, [], false)
  | .allHooksInstalled => (43, "", [], false)
  | .toolFound t => (44, t, [], false)
  | .toolMissing t => (45, t, [], false)
  | .jsToolMissing t => (46, t, [], false)
  | .prettierConfigMissing => (47, "", [], false)
  | .eslintConfigMissing => (48, "", [], false)
  | .checkingJsTools => (49, "", [], false)
  | .skipJsToolsCheck => (50, "", [], false)

/-- Left inverse of `Msg.enc`. -/
def Msg.dec : Nat × String × List String × Bool → Msg
  | (0, _, _, _) => .startSetup
  | (1, _, _, _) => .notGitRepoSetup
  | (2, _, _, _) => .gitRepoDetectedSetup
  | (3, _, _, _) => .configExistsSkip
  | (4, _, _, _) => .skipConfigCreation
  | (5, _, _, _) => .copyConfigFailed
  | (6, _, _, _) => .noPackageJsonInfo
  | (7, _, _, _) => .createdEslintrc
  | (8, _, _, _) => .createdPrettierrc
  | (9, _, _, b) => .copiedConfig b
  | (10, _, _, _) => .installingCommitizen
  | (11, _, _, _) => .failedInstallCommitizen
  | (12, _, _, _) => .installedCommitizen
  | (13, _, _, _) => .installingHooksHeader
  | (14, _, _, _) => .preCommitNotFoundSetup
  | (15, t, _, _) => .installingHookType t
  | (16, t, _, _) => .failedInstallHookType t
  | (17, _, c, ok) => .runEcho c ok
  | (18, _, _, _) => .failedCreateConfigAbort
  | (19, _, _, _) => .failedInstallHooksAbort
  | (20, _, _, _) => .instrHeader
  | (21, _, _, _) => .checkingToolsInfo
  | (22, _, _, _) => .pyToolsHeader
  | (23, t, _, _) => .pyToolMissingInstr t
  | (24, _, _, _) => .pyToolsFooter
  | (25, _, _, _) => .jsToolsHeader
  | (26, _, _, _) => .jsToolsFooter
  | (27, _, _, _) => .jsToolsAllPresent1
  | (28, _, _, _) => .jsToolsAllPresent2
  | (29, _, _, _) => .noPackageJsonSkipJs
  | (30, _, _, _) => .verifyTip
  | (31, _, _, _) => .setupComplete
  | (32, _, _, _) => .hooksInstalledNote
  | (33, _, _, _) => .tipCustomize1
  | (34, _, _, _) => .tipCustomize2
  | (35, _, _, _) => .notGitRepoCheck
  | (36, _, _, _) => .gitRepoDetectedCheck
  | (37, _, _, _) => .preCommitFound
  | (38, _, _, _) => .preCommitNotFound
  | (39, _, _, _) => .configFound
  | (40, _, _, _) => .configNotFound
  | (41, t, _, _) => .hookFound t
  | (42, t, _, _) => .hookMissing t
  | (43, _, _, _) => .allHooksInstalled
  | (44, t, _, _) => .toolFound t
  | (45, t, _, _) => .toolMissing t
  | (46, t, _, _) => .jsToolMissing t
  | (47, _, _, _) => .prettierConfigMissing
  | (48, _, _, _) => .eslintConfigMissing
  | (49, _, _, _) => .checkingJsTools
  | (50, _, _, _) => .skipJsToolsCheck
  | _ => .startSetup

/-- Decidable equality for `Msg` via the encoding. -/
instance : DecidableEq Msg := fun a b =>
  decidable_of_iff (Msg.enc a = Msg.enc b)
    ⟨fun h => by
        have hd : ∀ m : Msg, Msg.dec (Msg.enc m) = m := by
          intro m
          cases m <;> rfl
        rw [← hd a, ← hd b, h],
      fun h => by rw [h]⟩

/-- Colors passed as `fg=` to `click.secho`. -/
inductive Color where
  | red
  | yellow
  | green
  | cyan
deriving DecidableEq

/-- The `fg` color of each `secho` call in `setup`-side code (`none` for
plain `click.echo`).  Messages of the `check` summary are instead
colored per bucket at print time (green/yellow/red), so they map to
`none` here. -/
def msgColor : Msg → Option Color
  | .notGitRepoSetup => some .red
  | .gitRepoDetectedSetup => some .green
  | .configExistsSkip => some .yellow
  | .copyConfigFailed => some .red
  | .failedInstallCommitizen => some .yellow
  | .installedCommitizen => some .green
  | .preCommitNotFoundSetup => some .red
  | .failedInstallHookType _ => some .yellow
  | .failedCreateConfigAbort => some .red
  | .failedInstallHooksAbort => some .red
  | .pyToolsHeader => some .cyan
  | .jsToolsHeader => some .cyan
  | .setupComplete => some .green
  | _ => none

/-! ### `cli.py`: helpers for `setup` -/

/-- Result of `_copy_config`: the returned boolean, the updated working
directory, and the messages it printed. -/
structure CopyResult where
  copied : Bool
  fs : FS
  out : List Msg

/-- The final `TARGET_CONFIG_FILE.write_text(...)` of `_copy_config`
plus the success echo; a failing write raises, which the source catches
and converts to the error message and `False`. -/
def writeTarget (env : Env) (overwrite : Bool) (fs : FS) (content : List Char)
    (preOut : List Msg) : CopyResult :=
  if !env.writeTargetOk then
    { copied := false, fs := fs, out := preOut ++ [Msg.copyConfigFailed] }
  else
    { copied := true, fs := { fs with targetConfig := some content },
      out := preOut ++ [Msg.copiedConfig overwrite] }

/-- The `.prettierrc` branch of `_copy_config` (manifest present): create
a basic `.prettierrc` when no file matches `PRETTIERRC_GLOB`, then write
the target config. -/
def ensurePrettier (env : Env) (overwrite : Bool) (fs : FS) (content : List Char)
    (preOut : List Msg) : CopyResult :=
  if !find_config_file fs PRETTIERRC_GLOB then
    if !env.writePrettierOk then
      { copied := false, fs := fs, out := preOut ++ [Msg.copyConfigFailed] }
    else
      writeTarget env overwrite { fs with dotfiles := fs.dotfiles ++ [PRETTIERRC_NAME] }
        content (preOut ++ [Msg.createdPrettierrc])
  else
    writeTarget env overwrite fs content preOut

/-- The `.eslintrc.json` branch of `_copy_config` (manifest present):
create a basic `.eslintrc.json` when no file matches `ESLINTRC_GLOB`,
then continue with the Prettier config check. -/
def ensureEslint (env : Env) (overwrite : Bool) (fs : FS) (content : List Char)
    (preOut : List Msg) : CopyResult :=
  if !find_config_file fs ESLINTRC_GLOB then
    if !env.writeEslintOk then
      { copied := false, fs := fs, out := preOut ++ [Msg.copyConfigFailed] }
    else
      ensurePrettier env overwrite { fs with dotfiles := fs.dotfiles ++ [ESLINTRC_NAME] }
        content (preOut ++ [Msg.createdEslintrc])
  else
    ensurePrettier env overwrite fs content preOut

/-- The `_copy_config(overwrite)`.  Skips (returning `True`) when the target
exists and `overwrite` is false; otherwise reads the template, excises
the JS/TS section when `package.json` is absent (`split` on the two
markers; a missing second marker raises `IndexError` from the `[1]`
subscript, caught by the blanket handler), or, when `package.json` is
present, first creates default ESLint/Prettier configs, and finally
writes the target file.  All exceptions are caught and become the error
message plus `False`. -/
def _copy_config (env : Env) (overwrite : Bool) (fs : FS) : CopyResult :=
  if fs.targetConfig.isSome && !overwrite then
    { copied := true, fs := fs, out := [Msg.configExistsSkip, Msg.skipConfigCreation] }
  else
    match env.template with
    | none => { copied := false, fs := fs, out := [Msg.copyConfigFailed] }
    | some template_content =>
      if !fs.packageJson then
        match pySplit jsMarker template_content with
        | before_js :: p1 :: _ =>
          (match pySplit branchMarker p1 with
           | _ :: after_js :: _ =>
             writeTarget env overwrite fs (before_js ++ branchMarker ++ after_js)
               [Msg.noPackageJsonInfo]
           | _ => { copied := false, fs := fs, out := [Msg.copyConfigFailed] })
        | _ => writeTarget env overwrite fs template_content []
      else
        ensureEslint env overwrite fs template_content []

/-- The `run_command`: abstracted to the success flag supplied by the
environment plus a single message standing for its own printing. -/
def run_command (env : Env) (cmd : List String) : Bool × List Msg :=
  (env.runOk cmd, [Msg.runEcho cmd (env.runOk cmd)])

/-- The `_install_python_tools`: best-effort `pip install commitizen` when
`cz` is not on PATH. -/
def _install_python_tools (env : Env) : Bool × List Msg :=
  if !command_exists env "cz" then
    let r := run_command env ["pip", "install", "commitizen"]
    if !r.1 then (false, [Msg.installingCommitizen] ++ r.2 ++ [Msg.failedInstallCommitizen])
    else (true, [Msg.installingCommitizen] ++ r.2 ++ [Msg.installedCommitizen])
  else (true, [])

/-- One iteration of the `for hook_type in HOOK_TYPES` loop of
`_install_hooks`. -/
def installHookStep (env : Env) (acc : Bool × List Msg) (t : String) : Bool × List Msg :=
  let r := run_command env ["pre-commit", "install", "--hook-type", t]
  if !r.1 then (false, acc.2 ++ [Msg.installingHookType t] ++ r.2 ++ [Msg.failedInstallHookType t])
  else (acc.1, acc.2 ++ [Msg.installingHookType t] ++ r.2)

/-- The `_install_hooks`: fatal if the `pre-commit` binary is absent,
otherwise installs every hook type, recording (but not aborting on)
per-type failures. -/
def _install_hooks (env : Env) : Bool × List Msg :=
  if !command_exists env "pre-commit" then
    (false, [Msg.installingHooksHeader, Msg.preCommitNotFoundSetup])
  else
    HOOK_TYPES.foldl (installHookStep env) (true, [Msg.installingHooksHeader])

/-- One iteration of the tool loop of `_check_python_tools`. -/
def checkPyToolStep (env : Env) (acc : List Msg × Bool) (tool : String × ToolInfo) :
    List Msg × Bool :=
  let check_cmd := if tool.1 == "commitizen" then "cz" else tool.1
  if !command_exists env check_cmd then (acc.1 ++ [Msg.pyToolMissingInstr tool.1], false)
  else acc

/-- The `_check_python_tools`: missing-tool instruction lines plus overall flag. -/
def _check_python_tools (env : Env) : List Msg × Bool :=
  PYTHON_TOOLS.foldl (checkPyToolStep env) ([], true)

/-- The `_check_js_tools`: missing items for the Prettier/ESLint commands and
config files, plus overall flag. -/
def _check_js_tools (env : Env) (fs : FS) : List Msg × Bool :=
  let m1 := if !command_exists env "prettier" then [Msg.jsToolMissing "prettier"] else []
  let m2 := if !find_config_file fs PRETTIERRC_GLOB then [Msg.prettierConfigMissing] else []
  let m3 := if !command_exists env "eslint" then [Msg.jsToolMissing "eslint"] else []
  let m4 := if !find_config_file fs ESLINTRC_GLOB then [Msg.eslintConfigMissing] else []
  (m1 ++ m2 ++ m3 ++ m4,
   command_exists env "prettier" && find_config_file fs PRETTIERRC_GLOB &&
     command_exists env "eslint" && find_config_file fs ESLINTRC_GLOB)

/-- The `_print_dependency_instructions`: the instruction block printed at
the end of a successful `setup`. -/
def _print_dependency_instructions (env : Env) (fs : FS) : List Msg :=
  let py := _check_python_tools env
  let pyMsgs := if py.1.isEmpty then [] else [Msg.pyToolsHeader] ++ py.1 ++ [Msg.pyToolsFooter]
  let jsMsgs :=
    if fs.packageJson then
      [Msg.jsToolsHeader] ++
        (let js := _check_js_tools env fs
         if js.1.isEmpty then [Msg.jsToolsAllPresent1, Msg.jsToolsAllPresent2]
         else js.1 ++ [Msg.jsToolsFooter])
    else [Msg.noPackageJsonSkipJs]
  [Msg.instrHeader, Msg.checkingToolsInfo] ++ pyMsgs ++ jsMsgs ++ [Msg.verifyTip]

/-! ### `cli.py`: the `check` probes -/

/-- Result of one probe: directly echoed lines, the three classified
buckets, and the `issues_found` flag. -/
structure ProbeResult where
  out : List Msg
  success : List Msg
  warnings : List Msg
  errors : List Msg
  issues : Bool

/-- The probe `_check_git_repo`. -/
def _check_git_repo (fs : FS) : ProbeResult :=
  if !is_git_repo fs then
    { out := [], success := [], warnings := [], errors := [Msg.notGitRepoCheck], issues := true }
  else
    { out := [], success := [Msg.gitRepoDetectedCheck], warnings := [], errors := [],
      issues := false }

/-- The probe `_check_pre_commit`. -/
def _check_pre_commit (env : Env) (fs : FS) : ProbeResult :=
  let r1 :=
    if !command_exists env "pre-commit" then (([] : List Msg), [Msg.preCommitNotFound], true)
    else ([Msg.preCommitFound], ([] : List Msg), false)
  let r2 :=
    if !fs.targetConfig.isSome then (([] : List Msg), [Msg.configNotFound], true)
    else ([Msg.configFound], ([] : List Msg), false)
  { out := [], success := r1.1 ++ r2.1, warnings := [], errors := r1.2.1 ++ r2.2.1,
    issues := r1.2.2 || r2.2.2 }

/-- One iteration of the hook-type loop of `_check_hooks`; the state is
(success msgs, warning msgs, `hooks_ok`, `issues_found`). -/
def checkHookStep (fs : FS) (acc : List Msg × List Msg × Bool × Bool) (t : String) :
    List Msg × List Msg × Bool × Bool :=
  if check_hook_installed fs t then (acc.1 ++ [Msg.hookFound t], acc.2.1, acc.2.2.1, acc.2.2.2)
  else (acc.1, acc.2.1 ++ [Msg.hookMissing t], false, true)

/-- The `_check_hooks`: per-hook-type installation probe; a missing hook adds
a warning and sets `issues_found`. -/
def _check_hooks (fs : FS) : ProbeResult :=
  let r := HOOK_TYPES.foldl (checkHookStep fs) ([], [], true, false)
  { out := [],
    success := if r.2.2.1 then r.1 ++ [Msg.allHooksInstalled] else r.1,
    warnings := r.2.1, errors := [], issues := r.2.2.2 }

/-- One iteration of the Python-tool loop of `_check_tools`. -/
def checkToolStep (env : Env) (acc : List Msg × List Msg) (tool : String × ToolInfo) :
    List Msg × List Msg :=
  let check_cmd := if tool.1 == "commitizen" then "cz" else tool.1
  if command_exists env check_cmd then (acc.1 ++ [Msg.toolFound tool.1], acc.2)
  else (acc.1, acc.2 ++ [Msg.toolMissing tool.1])

/-- The `_check_tools`: Python tools then (when `package.json` exists) the
JS/TS tools; never sets `issues_found` and never adds errors. -/
def _check_tools (env : Env) (fs : FS) : ProbeResult :=
  let r := PYTHON_TOOLS.foldl (checkToolStep env) ([], [])
  if fs.packageJson then
    { out := [Msg.checkingJsTools], success := r.1,
      warnings := r.2 ++ (_check_js_tools env fs).1, errors := [], issues := false }
  else
    { out := [Msg.skipJsToolsCheck], success := r.1, warnings := r.2, errors := [],
      issues := false }

/-! ### `cli.py`: the `setup` and `check` commands -/

/-- Result of a `setup` run: process exit code, final working-directory
state, and everything printed. -/
structure SetupResult where
  exit : Nat
  fs : FS
  out : List Msg

/-- The `setup` command.  Exits 1 when not a git repository, when
`_copy_config` failed and no target file exists afterwards, or when
`_install_hooks` failed; the dependency instructions are printed only
after a successful hook installation.  Files written by the external
hook manager and package installer (hook scripts under `.git/hooks`,
pip packages) are outside this model: `fs` only changes through
`_copy_config`. -/
def setup (env : Env) (overwrite : Bool) (fs : FS) : SetupResult :=
  let out0 := [Msg.startSetup]
  if !is_git_repo fs then
    { exit := 1, fs := fs, out := out0 ++ [Msg.notGitRepoSetup] }
  else
    let out1 := out0 ++ [Msg.gitRepoDetectedSetup]
    let cp := _copy_config env overwrite fs
    if !cp.copied && !cp.fs.targetConfig.isSome then
      { exit := 1, fs := cp.fs, out := out1 ++ cp.out ++ [Msg.failedCreateConfigAbort] }
    else
      let py := _install_python_tools env
      let hooks := _install_hooks env
      if !hooks.1 then
        { exit := 1, fs := cp.fs,
          out := out1 ++ cp.out ++ py.2 ++ hooks.2 ++ [Msg.failedInstallHooksAbort] }
      else
        { exit := 0, fs := cp.fs,
          out := out1 ++ cp.out ++ py.2 ++ hooks.2 ++
            (_print_dependency_instructions env cp.fs ++
              ([Msg.setupComplete] ++
                (if hooks.1 then [Msg.hooksInstalledNote] else []) ++
                [Msg.tipCustomize1, Msg.tipCustomize2])) }

/-- The classification conveyed by the final line of the `check` summary. -/
inductive Status where
  | success
  | warning
  | error
deriving DecidableEq

/-- The final three-way `if`/`elif`/`else` of `check`. -/
def aggregateVerdict (hasIssues : Bool) (warnings : List Msg) : Status :=
  if !hasIssues && warnings.isEmpty then Status.success
  else if !hasIssues && !warnings.isEmpty then Status.warning
  else Status.error

/-- Result of a `check` run: directly echoed probe output, the three
aggregated buckets, the `has_issues` flag, the printed classification,
and the process exit code. -/
structure CheckReport where
  out : List Msg
  success : List Msg
  warnings : List Msg
  errors : List Msg
  hasIssues : Bool
  verdict : Status
  exit : Nat

/-- The `check` command: runs the four probes in order, concatenates
their buckets, ors their `issues` flags, prints the summary, and returns
normally (so the process exit code is always 0). -/
def check (env : Env) (fs : FS) : CheckReport :=
  let r1 := _check_git_repo fs
  let r2 := _check_pre_commit env fs
  let r3 := _check_hooks fs
  let r4 := _check_tools env fs
  let allW := r1.warnings ++ r2.warnings ++ r3.warnings ++ r4.warnings
  let hasIssues := r1.issues || r2.issues || r3.issues || r4.issues
  { out := r1.out ++ r2.out ++ r3.out ++ r4.out,
    success := r1.success ++ r2.success ++ r3.success ++ r4.success,
    warnings := allW,
    errors := r1.errors ++ r2.errors ++ r3.errors ++ r4.errors,
    hasIssues := hasIssues,
    verdict := aggregateVerdict hasIssues allW,
    exit := 0 }

/-! ### Concrete instances used by witnesses and counterexamples -/

/-- Environment in which every command resolves, every external command
succeeds, the bundled template reads fine and every write succeeds. -/
def envAllOk : Env :=
  { cmdExists := fun _ => true, runOk := fun _ => true,
    template := some templateContent,
    writeTargetOk := true, writeEslintOk := true, writePrettierOk := true }

/-- Same machine, but every `run_command` invocation fails (so every
`pre-commit install --hook-type ...` call fails). -/
def envRunsFail : Env := { envAllOk with runOk := fun _ => false }

/-- Fresh Python-project working directory: a git repository with no
config file, no manifest, no dotfiles and no hook scripts. -/
def fsFresh : FS :=
  { gitDir := true, packageJson := false, targetConfig := none, dotfiles := [],
    hookFiles := fun _ => none }

/-- Same directory after the config file appeared, hooks still absent. -/
def fsHooksMissing : FS := { fsFresh with targetConfig := some templateContent }

/-- Fresh JS/TS-project working directory (`package.json` present). -/
def fsFreshJs : FS := { fsFresh with packageJson := true }

/-- A hook-script content carrying all three `pre-commit` markers. -/
def goodHookContent : List Char :=
  ("#!/usr/bin/env bash\n# File generated by pre-commit: do not edit\nINSTALL_PYTHON=python3\n").data

/-- Directory whose hook files are all present, readable and generated by
`pre-commit`. -/
def fsHooksOk : FS := { fsHooksMissing with hookFiles := fun _ => some (some goodHookContent) }

/-- A template in which the JS/TS section marker occurs but the
branch-naming marker does not. -/
def badTemplate : List Char :=
  ("junk\n  # JavaScript/TypeScript specific hooks more junk").data

/-- Environment whose bundled template is `badTemplate`. -/
def envBadTemplate : Env := { envAllOk with template := some badTemplate }

/-- A template containing neither marker. -/
def plainTemplate : List Char := ("repos:\n  - repo: local\n").data

/-- Environment whose bundled template is `plainTemplate`. -/
def envPlainTemplate : Env := { envAllOk with template := some plainTemplate }

/-- Directory whose hook files exist but cannot be read as text. -/
def fsUnreadableHooks : FS := { fsFresh with hookFiles := fun _ => some none }

/-- Directory whose hook files are readable but zero-byte. -/
def fsEmptyHook : FS := { fsFresh with hookFiles := fun _ => some (some []) }

/-- The chunk of `templateContent` before the JS/TS section marker. -/
def part0 : List Char := ("repos:\n  - repo: local\n    hooks:\n      - id: black").data

/-- The chunk of `templateContent` after the JS/TS section marker. -/
def part1 : List Char :=
  ("\n  - repo: local\n    hooks:\n      - id: eslint\n  # Branch naming convention\n  - repo: local\n    hooks:\n      - id: branch-name\n").data

/-- The chunk of `part1` before the branch-naming marker. -/
def part1a : List Char := ("\n  - repo: local\n    hooks:\n      - id: eslint").data

/-- The chunk of `part1` after the branch-naming marker. -/
def part1b : List Char := ("\n  - repo: local\n    hooks:\n      - id: branch-name\n").data

/-! ### Lemmas about the text utilities -/

/-- Correctness: `isPre p s` holds exactly when `s` extends `p`. -/
theorem isPre_iff : ∀ (p s : List Char), isPre p s = true ↔ ∃ t, s = p ++ t
  | [], s => by simp [isPre]
  | _ :: _, [] => by simp [isPre]
  | a :: as, b :: bs => by
    rw [show isPre (a :: as) (b :: bs) = (a == b && isPre as bs) from rfl,
      Bool.and_eq_true, beq_iff_eq, isPre_iff as bs]
    constructor
    · rintro ⟨rfl, t, rfl⟩
      exact ⟨t, rfl⟩
    · rintro ⟨t, ht⟩
      injection ht with h1 h2
      exact ⟨h1.symm, t, h2⟩

/-- Correctness: `containsSub m s` holds exactly when `m` occurs somewhere in `s`. -/
theorem containsSub_iff : ∀ (m s : List Char), containsSub m s = true ↔ ∃ a b, s = a ++ m ++ b
  | m, [] => by
    constructor
    · intro h
      have hm : m = [] := by
        cases m with
        | nil => rfl
        | cons x xs => simp [containsSub, List.isEmpty] at h
      subst hm
      exact ⟨[], [], rfl⟩
    · rintro ⟨a, b, h⟩
      rcases List.append_eq_nil.mp h.symm with ⟨h1, rfl⟩
      rcases List.append_eq_nil.mp h1 with ⟨rfl, rfl⟩
      rfl
  | m, c :: cs => by
    rw [show containsSub m (c :: cs) = (isPre m (c :: cs) || containsSub m cs) from rfl,
      Bool.or_eq_true, isPre_iff, containsSub_iff m cs]
    constructor
    · rintro (⟨t, ht⟩ | ⟨a, b, rfl⟩)
      · exact ⟨[], t, by simpa using ht⟩
      · exact ⟨c :: a, b, rfl⟩
    · rintro ⟨a, b, h⟩
      cases a with
      | nil =>
        left
        exact ⟨b, by simpa using h⟩
      | cons x xs =>
        right
        injection h with h1 h2
        exact ⟨xs, b, h2⟩

/-- A string containing an occurrence of a part of `s` contains it in `s`. -/
theorem containsSub_of_part {m p s : List Char} (h : containsSub m p = true)
    (hd : ∃ a b, s = a ++ p ++ b) : containsSub m s = true := by
  rcases (containsSub_iff m p).mp h with ⟨x, y, rfl⟩
  rcases hd with ⟨a, b, rfl⟩
  exact (containsSub_iff m _).mpr ⟨a ++ x, y ++ b, by simp [List.append_assoc]⟩

/-- The worker `splitAux` never returns the empty list. -/
theorem splitAux_ne_nil (sep : List Char) :
    ∀ (fuel : Nat) (s acc : List Char), splitAux sep fuel s acc ≠ []
  | 0, s, acc => by simp [splitAux]
  | _ + 1, [], acc => by simp [splitAux]
  | fuel + 1, d :: ds, acc => by
    simp only [splitAux]
    split
    · simp
    · exact splitAux_ne_nil sep fuel ds (d :: acc)

/-- With no occurrence of the separator, `splitAux` yields one chunk. -/
theorem splitAux_of_not_contains (sep : List Char) :
    ∀ (fuel : Nat) (s acc : List Char), s.length < fuel → containsSub sep s = false →
      splitAux sep fuel s acc = [acc.reverse ++ s]
  | 0, s, acc => by
    intro h _
    exact absurd h (Nat.not_lt_zero _)
  | _ + 1, [], acc => by
    intro _ _
    simp [splitAux]
  | fuel + 1, d :: ds, acc => by
    intro hlen hc
    rw [show containsSub sep (d :: ds) = (isPre sep (d :: ds) || containsSub sep ds) from rfl]
      at hc
    rcases Bool.or_eq_false_iff.mp hc with ⟨h1, h2⟩
    simp only [splitAux, h1, Bool.false_eq_true, if_false]
    rw [splitAux_of_not_contains sep fuel ds (d :: acc) (by simp at hlen; omega) h2]
    simp

/-- With an occurrence of a non-empty separator, `splitAux` yields at
least two chunks. -/
theorem splitAux_two_of_contains (sep : List Char) (hsep : sep ≠ []) :
    ∀ (fuel : Nat) (s acc : List Char), s.length < fuel → containsSub sep s = true →
      2 ≤ (splitAux sep fuel s acc).length
  | 0, s, acc => by
    intro h _
    exact absurd h (Nat.not_lt_zero _)
  | _ + 1, [], acc => by
    intro _ hc
    cases sep with
    | nil => exact absurd rfl hsep
    | cons x xs => simp [containsSub, List.isEmpty] at hc
  | fuel + 1, d :: ds, acc => by
    intro hlen hc
    simp only [splitAux]
    split
    · have h1 : splitAux sep fuel ((d :: ds).drop sep.length) [] ≠ [] :=
        splitAux_ne_nil sep fuel _ []
      have := List.length_pos.mpr h1
      simp only [List.length_cons]
      omega
    · rename_i hpre
      rw [show containsSub sep (d :: ds) = (isPre sep (d :: ds) || containsSub sep ds) from rfl,
        Bool.or_eq_true] at hc
      rcases hc with hc | hc
      · exact absurd hc (by simp [hpre])
      · exact splitAux_two_of_contains sep hsep fuel ds (d :: acc) (by simp at hlen; omega) hc

/-- Every chunk produced by `splitAux` occurs inside the original string
(`t`), provided the invariant that `acc.reverse ++ s` occurs in `t`. -/
theorem splitAux_mem_parts (sep : List Char) (hsep : sep ≠ []) :
    ∀ (fuel : Nat) (s acc t : List Char), s.length < fuel →
      (∃ a b, t = a ++ (acc.reverse ++ s) ++ b) →
      ∀ p ∈ splitAux sep fuel s acc, ∃ a b, t = a ++ p ++ b
  | 0, s, acc, t => by
    intro h _
    exact absurd h (Nat.not_lt_zero _)
  | _ + 1, [], acc, t => by
    intro _ hinv p hp
    simp only [splitAux, List.mem_singleton] at hp
    subst hp
    rcases hinv with ⟨a, b, h⟩
    exact ⟨a, b, by simpa using h⟩
  | fuel + 1, d :: ds, acc, t => by
    intro hlen hinv p hp
    have hsl : 1 ≤ sep.length := by
      cases sep with
      | nil => exact absurd rfl hsep
      | cons x xs => simp
    simp only [splitAux] at hp
    revert hp
    split
    · intro hp
      rcases List.mem_cons.mp hp with rfl | hp'
      · rcases hinv with ⟨a, b, rfl⟩
        exact ⟨a, (d :: ds) ++ b, by simp [List.append_assoc]⟩
      · apply splitAux_mem_parts sep hsep fuel _ [] t _ _ p hp'
        · have : ((d :: ds).drop sep.length).length = (d :: ds).length - sep.length :=
            List.length_drop _ _
          simp only [List.length_cons] at this hlen ⊢
          omega
        · rcases hinv with ⟨a, b, rfl⟩
          refine ⟨a ++ acc.reverse ++ (d :: ds).take sep.length, b, ?_⟩
          have hts := List.take_append_drop sep.length (d :: ds)
          calc a ++ (acc.reverse ++ (d :: ds)) ++ b
              = a ++ (acc.reverse ++ ((d :: ds).take sep.length ++ (d :: ds).drop sep.length))
                  ++ b := by rw [hts]
            _ = a ++ acc.reverse ++ (d :: ds).take sep.length ++
                  ([].reverse ++ (d :: ds).drop sep.length) ++ b := by
                  simp [List.append_assoc]
    · intro hp
      apply splitAux_mem_parts sep hsep fuel ds (d :: acc) t (by simp at hlen; omega) _ p hp
      rcases hinv with ⟨a, b, rfl⟩
      exact ⟨a, b, by simp [List.append_assoc]⟩

/-- Python `s.split(sep)` is `[s]` when `sep` does not occur in `s`. -/
theorem pySplit_of_not_contains {sep s : List Char} (hsep : sep ≠ [])
    (h : containsSub sep s = false) : pySplit sep s = [s] := by
  cases sep with
  | nil => exact absurd rfl hsep
  | cons x xs =>
    rw [show pySplit (x :: xs) s = splitAux (x :: xs) (s.length + 1) s [] from rfl,
      splitAux_of_not_contains (x :: xs) (s.length + 1) s [] (Nat.lt_succ_self _) h]
    simp

/-- Python `s.split(sep)` has at least two entries when `sep` occurs in `s`. -/
theorem pySplit_two_of_contains {sep s : List Char} (hsep : sep ≠ [])
    (h : containsSub sep s = true) :
    ∃ p0 p1 rest, pySplit sep s = p0 :: p1 :: rest := by
  cases sep with
  | nil => exact absurd rfl hsep
  | cons x xs =>
    have h2 : 2 ≤ (pySplit (x :: xs) s).length :=
      splitAux_two_of_contains (x :: xs) hsep (s.length + 1) s [] (Nat.lt_succ_self _) h
    rcases hl : pySplit (x :: xs) s with _ | ⟨p0, _ | ⟨p1, rest⟩⟩
    · rw [hl] at h2
      simp at h2
    · rw [hl] at h2
      simp at h2
    · exact ⟨p0, p1, rest, rfl⟩

/-- Every entry of `s.split(sep)` occurs inside `s`. -/
theorem pySplit_mem_parts {sep s p : List Char} (hsep : sep ≠ [])
    (hp : p ∈ pySplit sep s) : ∃ a b, s = a ++ p ++ b := by
  cases sep with
  | nil =>
    exact absurd rfl hsep
  | cons x xs =>
    exact splitAux_mem_parts (x :: xs) hsep (s.length + 1) s [] s (Nat.lt_succ_self _)
      ⟨[], [], by simp⟩ p hp

/-! ### Structural lemmas about `_copy_config` -/

/-- The helper `writeTarget` changes nothing but the target-config content. -/
theorem writeTarget_fs (env : Env) (o : Bool) (fs : FS) (c : List Char) (p : List Msg) :
    (writeTarget env o fs c p).fs.gitDir = fs.gitDir ∧
      (writeTarget env o fs c p).fs.packageJson = fs.packageJson := by
  unfold writeTarget
  split <;> simp

/-- The helper `ensurePrettier` preserves `gitDir` and `packageJson`. -/
theorem ensurePrettier_fs (env : Env) (o : Bool) (fs : FS) (c : List Char) (p : List Msg) :
    (ensurePrettier env o fs c p).fs.gitDir = fs.gitDir ∧
      (ensurePrettier env o fs c p).fs.packageJson = fs.packageJson := by
  unfold ensurePrettier
  split
  · split
    · simp
    · exact writeTarget_fs env o _ c _
  · exact writeTarget_fs env o fs c p

/-- The helper `ensureEslint` preserves `gitDir` and `packageJson`. -/
theorem ensureEslint_fs (env : Env) (o : Bool) (fs : FS) (c : List Char) (p : List Msg) :
    (ensureEslint env o fs c p).fs.gitDir = fs.gitDir ∧
      (ensureEslint env o fs c p).fs.packageJson = fs.packageJson := by
  unfold ensureEslint
  split
  · split
    · simp
    · exact ensurePrettier_fs env o _ c _
  · exact ensurePrettier_fs env o fs c p

/-- The helper `_copy_config` preserves `gitDir` and `packageJson`. -/
theorem copy_config_fs (env : Env) (o : Bool) (fs : FS) :
    (_copy_config env o fs).fs.gitDir = fs.gitDir ∧
      (_copy_config env o fs).fs.packageJson = fs.packageJson := by
  unfold _copy_config
  split
  · simp
  · split
    · simp
    · split
      · split
        · split
          · exact writeTarget_fs _ _ _ _ _
          · simp
        · exact writeTarget_fs _ _ _ _ _
      · exact ensureEslint_fs _ _ _ _ _

/-- When `writeTarget` reports success the target file exists. -/
theorem writeTarget_copied (env : Env) (o : Bool) (fs : FS) (c : List Char) (p : List Msg) :
    (writeTarget env o fs c p).copied = true →
      (writeTarget env o fs c p).fs.targetConfig.isSome = true := by
  unfold writeTarget
  split <;> simp

/-- When `ensurePrettier` reports success the target file exists. -/
theorem ensurePrettier_copied (env : Env) (o : Bool) (fs : FS) (c : List Char) (p : List Msg) :
    (ensurePrettier env o fs c p).copied = true →
      (ensurePrettier env o fs c p).fs.targetConfig.isSome = true := by
  unfold ensurePrettier
  split
  · split
    · simp
    · exact writeTarget_copied env o _ c _
  · exact writeTarget_copied env o fs c p

/-- When `ensureEslint` reports success the target file exists. -/
theorem ensureEslint_copied (env : Env) (o : Bool) (fs : FS) (c : List Char) (p : List Msg) :
    (ensureEslint env o fs c p).copied = true →
      (ensureEslint env o fs c p).fs.targetConfig.isSome = true := by
  unfold ensureEslint
  split
  · split
    · simp
    · exact ensurePrettier_copied env o _ c _
  · exact ensurePrettier_copied env o fs c p

/-- When `_copy_config` returns `True` a target config file exists
afterwards (either it skipped because the file was already there, or it
just wrote the file). -/
theorem copy_config_copied (env : Env) (o : Bool) (fs : FS) :
    (_copy_config env o fs).copied = true →
      (_copy_config env o fs).fs.targetConfig.isSome = true := by
  unfold _copy_config
  split
  · rename_i hcond
    intro _
    simpa using (Bool.and_eq_true _ _ |>.mp hcond).1
  · split
    · simp
    · split
      · split
        · split
          · exact writeTarget_copied _ _ _ _ _
          · simp
        · exact writeTarget_copied _ _ _ _ _
      · exact ensureEslint_copied _ _ _ _ _

/-! ### Per-probe lemmas for the `check` aggregation -/

/-- The repository probe signals `issues_found` exactly when it reported
its error message, and never warns. -/
theorem check_git_repo_issues (fs : FS) :
    ((_check_git_repo fs).issues = true ↔ (_check_git_repo fs).errors ≠ []) ∧
      ((_check_git_repo fs).issues = false ↔ (_check_git_repo fs).errors = []) ∧
      (_check_git_repo fs).warnings = [] := by
  cases h : fs.gitDir <;> simp [_check_git_repo, is_git_repo, h]

/-- The pre-commit/config probe signals `issues_found` exactly when it
reported an error message, and never warns. -/
theorem check_pre_commit_issues (env : Env) (fs : FS) :
    ((_check_pre_commit env fs).issues = true ↔ (_check_pre_commit env fs).errors ≠ []) ∧
      ((_check_pre_commit env fs).issues = false ↔ (_check_pre_commit env fs).errors = []) ∧
      (_check_pre_commit env fs).warnings = [] := by
  cases h1 : env.cmdExists "pre-commit" <;> cases h2 : fs.targetConfig.isSome <;>
    simp [_check_pre_commit, command_exists, h1, h2]

/-- The hooks probe: `issues_found` is set exactly when some hook type is
missing, warnings are empty exactly when all hook types are installed,
and it never reports errors. -/
theorem check_hooks_spec (fs : FS) :
    ((_check_hooks fs).issues = true ↔ ∃ t ∈ HOOK_TYPES, check_hook_installed fs t = false) ∧
      ((_check_hooks fs).issues = false ↔ ∀ t ∈ HOOK_TYPES, check_hook_installed fs t = true) ∧
      ((_check_hooks fs).warnings = [] ↔ ∀ t ∈ HOOK_TYPES, check_hook_installed fs t = true) ∧
      (_check_hooks fs).errors = [] := by
  cases h1 : check_hook_installed fs "pre-commit" <;>
    cases h2 : check_hook_installed fs "commit-msg" <;>
    cases h3 : check_hook_installed fs "pre-push" <;>
    simp [_check_hooks, checkHookStep, HOOK_TYPES, h1, h2, h3]

/-- The tools probe never sets `issues_found` and never reports errors. -/
theorem check_tools_spec (env : Env) (fs : FS) :
    (_check_tools env fs).issues = false ∧ (_check_tools env fs).errors = [] := by
  cases h : fs.packageJson <;> simp [_check_tools, h]

/-- The final three-way classification of `check`, by cases. -/
theorem aggregateVerdict_spec (h : Bool) (w : List Msg) :
    (aggregateVerdict h w = Status.error ↔ h = true) ∧
      (aggregateVerdict h w = Status.warning ↔ (h = false ∧ w ≠ [])) ∧
      (aggregateVerdict h w = Status.success ↔ (h = false ∧ w = [])) := by
  cases h <;> cases w <;> simp [aggregateVerdict]

/-- A `setup` run that exits 0 passed the repository gate and left a
target config file behind. -/
theorem setup_exit_zero_fs (env : Env) (o : Bool) (fs : FS)
    (h : (setup env o fs).exit = 0) :
    (setup env o fs).fs.gitDir = true ∧ (setup env o fs).fs.targetConfig.isSome = true := by
  cases hg : is_git_repo fs <;>
    cases hcp : (_copy_config env o fs).copied <;>
    cases hs : (_copy_config env o fs).fs.targetConfig.isSome <;>
    cases hh : (_install_hooks env).1 <;>
    simp [setup, hg, hcp, hs, hh] at h ⊢ <;>
    first
      | (rw [(copy_config_fs env o fs).1]; exact hg)
      | exact absurd (copy_config_copied env o fs hcp) (by simp [hs])

/-- Claim C9: the `check` command never raises (it is a total function of
the probed environment) and always exits with code 0; severity is
conveyed only through the classified message buckets and the printed
verdict, never through the exit code. -/
theorem check_exit_zero (env : Env) (fs : FS) : (check env fs).exit = 0 := rfl

/-- Claim C2: `setup` exits 1 exactly when the working directory is not a
git repository, or `_copy_config` failed with no config file existing
afterwards, or hook installation failed (`_install_hooks` returns
`False` when the hook-manager binary is missing or any hook type fails
to install); every other run exits 0. -/
theorem setup_exit_code (env : Env) (o : Bool) (fs : FS) :
    ((setup env o fs).exit = 0 ∨ (setup env o fs).exit = 1) ∧
      ((setup env o fs).exit = 1 ↔
        (is_git_repo fs = false ∨
          ((_copy_config env o fs).copied = false ∧
            (_copy_config env o fs).fs.targetConfig = none) ∨
          (_install_hooks env).1 = false)) := by
  unfold setup
  cases hg : is_git_repo fs
  · simp [hg]
  · cases hcp : (_copy_config env o fs).copied <;>
      cases ht : (_copy_config env o fs).fs.targetConfig <;>
      cases hh : (_install_hooks env).1 <;>
      simp [hg, hcp, ht, hh]

set_option maxHeartbeats 2000000 in
/-- Claim C1, counterexample: in a git repository with `pre-commit` on
PATH, the config file present, all Python tools available, no manifest
and no hook scripts installed, `check` collects no error message and
three warnings, yet prints the error classification — refuting the
claim that the error classification appears only when some probe
reported an error message. -/
theorem C1_counterexample :
    (check envAllOk fsHooksMissing).errors = [] ∧
      (check envAllOk fsHooksMissing).warnings ≠ [] ∧
      (check envAllOk fsHooksMissing).verdict = Status.error := by decide

set_option maxHeartbeats 4000000 in
/-- Claim C1 (amended): the overall printed status of `check` is the
error classification iff some probe reported an error message or some
hook type is missing (the hooks probe sets `issues_found` for its
warnings); otherwise it is the warning classification iff some probe
reported a warning; otherwise the success classification. -/
theorem check_overall_status (env : Env) (fs : FS) :
    ((check env fs).verdict = Status.error ↔
      ((check env fs).errors ≠ [] ∨ ∃ t ∈ HOOK_TYPES, check_hook_installed fs t = false)) ∧
      ((check env fs).verdict = Status.warning ↔
        ((check env fs).errors = [] ∧ (∀ t ∈ HOOK_TYPES, check_hook_installed fs t = true) ∧
          (check env fs).warnings ≠ [])) ∧
      ((check env fs).verdict = Status.success ↔
        ((check env fs).errors = [] ∧ (∀ t ∈ HOOK_TYPES, check_hook_installed fs t = true) ∧
          (check env fs).warnings = [])) := by
  have h1 := check_git_repo_issues fs
  have h2 := check_pre_commit_issues env fs
  have h3 := check_hooks_spec fs
  have h4 := check_tools_spec env fs
  have hver : (check env fs).verdict =
      aggregateVerdict
        ((_check_git_repo fs).issues || (_check_pre_commit env fs).issues ||
          (_check_hooks fs).issues || (_check_tools env fs).issues)
        ((_check_git_repo fs).warnings ++ (_check_pre_commit env fs).warnings ++
          ((_check_hooks fs).warnings ++ (_check_tools env fs).warnings)) := by
    unfold check
    simp
  have herr : (check env fs).errors =
      (_check_git_repo fs).errors ++ (_check_pre_commit env fs).errors ++
        ((_check_hooks fs).errors ++ (_check_tools env fs).errors) := by
    unfold check
    simp
  have hwar : (check env fs).warnings =
      (_check_git_repo fs).warnings ++ (_check_pre_commit env fs).warnings ++
        ((_check_hooks fs).warnings ++ (_check_tools env fs).warnings) := by
    unfold check
    simp
  rw [hver, herr, hwar, h1.2.2, h2.2.2, h3.2.2.2, h4.1, h4.2]
  simp only [List.nil_append, List.append_nil, Bool.or_false]
  rw [(aggregateVerdict_spec _ _).1, (aggregateVerdict_spec _ _).2.1,
    (aggregateVerdict_spec _ _).2.2]
  simp only [Bool.or_eq_true, Bool.or_eq_false_iff]
  simp only [h1.1, h1.2.1, h2.1, h2.2.1, h3.1, h3.2.1, List.append_eq_nil, ne_eq, not_and_or,
    not_not]
  tauto

/-- Claim C7: for every hook type whose hook file is readable as text,
the predicate holds iff the content contains all three markers; in
particular it is false for a zero-byte file. -/
theorem check_hook_installed_markers (fs : FS) (t : String) (content : List Char)
    (h : fs.hookFiles t = some (some content)) :
    (check_hook_installed fs t = true ↔
      (containsSub preCommitMarker content = true ∧
        containsSub generatedMarker content = true ∧
        containsSub installPythonMarker content = true)) ∧
      (content = [] → check_hook_installed fs t = false) := by
  have hc : check_hook_installed fs t =
      (containsSub preCommitMarker content && containsSub generatedMarker content &&
        containsSub installPythonMarker content) := by
    unfold check_hook_installed
    rw [h]
  constructor
  · rw [hc]
    simp [and_assoc]
  · rintro rfl
    rw [hc]
    decide

/-- Witness for C7: a content carrying all three markers satisfies the
predicate; a zero-byte content does not. -/
theorem check_hook_installed_markers_witness :
    check_hook_installed fsHooksOk "pre-commit" = true ∧
      check_hook_installed fsEmptyHook "pre-commit" = false :=
  ⟨((check_hook_installed_markers fsHooksOk "pre-commit" goodHookContent rfl).1).mpr
      ⟨by decide, by decide, by decide⟩,
    (check_hook_installed_markers fsEmptyHook "pre-commit" [] rfl).2 rfl⟩

/-- Claim C8: the hook-installed predicate is total — a missing hook file
or a read failure (binary content, permission error) yields `false`,
never a propagated error (the embedding is a total function). -/
theorem check_hook_installed_read_failure (fs : FS) (t : String) :
    (fs.hookFiles t = none → check_hook_installed fs t = false) ∧
      (fs.hookFiles t = some none → check_hook_installed fs t = false) := by
  constructor <;> intro h <;> unfold check_hook_installed <;> rw [h]

/-- Witness for C8: both failure modes at concrete directories. -/
theorem check_hook_installed_read_failure_witness :
    check_hook_installed fsFresh "pre-commit" = false ∧
      check_hook_installed fsUnreadableHooks "commit-msg" = false :=
  ⟨(check_hook_installed_read_failure fsFresh "pre-commit").1 rfl,
    (check_hook_installed_read_failure fsUnreadableHooks "commit-msg").2 rfl⟩

/-- In a repository whose target config already exists, a `setup` run
without `--overwrite` takes the skip branch of `_copy_config` and leaves
the config untouched, reporting the skip among its output. -/
theorem setup_preserves_config_when_skip (env : Env) (fs : FS)
    (hg : fs.gitDir = true) (hs : fs.targetConfig.isSome = true) :
    (setup env false fs).fs.targetConfig = fs.targetConfig ∧
      Msg.configExistsSkip ∈ (setup env false fs).out := by
  have hskip : _copy_config env false fs =
      { copied := true, fs := fs, out := [Msg.configExistsSkip, Msg.skipConfigCreation] } := by
    unfold _copy_config
    simp [hs]
  cases hh : (_install_hooks env).1 <;> simp [setup, is_git_repo, hg, hskip, hh]

/-- Claim C6: a second `setup` run without `--overwrite` after a first
run that exited 0 leaves the configuration file byte-identical; the skip
is reported with the warning color (yellow), not the error color. -/
theorem setup_config_idempotent (env1 env2 : Env) (o1 : Bool) (fs : FS)
    (h : (setup env1 o1 fs).exit = 0) :
    (setup env2 false (setup env1 o1 fs).fs).fs.targetConfig =
        (setup env1 o1 fs).fs.targetConfig ∧
      Msg.configExistsSkip ∈ (setup env2 false (setup env1 o1 fs).fs).out ∧
      msgColor Msg.configExistsSkip = some Color.yellow := by
  obtain ⟨hg, hs⟩ := setup_exit_zero_fs env1 o1 fs h
  obtain ⟨h1, h2⟩ := setup_preserves_config_when_skip env2 (setup env1 o1 fs).fs hg hs
  exact ⟨h1, h2, rfl⟩

set_option maxHeartbeats 2000000 in
/-- Witness for C6: a concrete first run exits 0 and the second run
leaves the config identical. -/
theorem setup_config_idempotent_witness :
    (setup envAllOk false fsFresh).exit = 0 ∧
      (setup envAllOk false (setup envAllOk false fsFresh).fs).fs.targetConfig =
        (setup envAllOk false fsFresh).fs.targetConfig :=
  ⟨by decide, (setup_config_idempotent envAllOk envAllOk false fsFresh (by decide)).1⟩

set_option maxHeartbeats 2000000 in
/-- Claim C3, counterexample: a run that is in a git repository and whose
config-file step succeeded, but whose hook installations all fail,
exits 1 without printing the dependency-instruction block — refuting the
claim that hook-type installation failures cannot prevent the
instructions from being printed. -/
theorem C3_counterexample :
    (setup envRunsFail false fsFresh).exit = 1 ∧
      is_git_repo fsFresh = true ∧
      (_copy_config envRunsFail false fsFresh).copied = true ∧
      Msg.instrHeader ∉ (setup envRunsFail false fsFresh).out := by decide

/-- Claim C3 (amended): in every setup run that passes the repository and
config-file checks and whose hook installation step succeeded, the
missing-tool instruction block is printed — in particular a step-4
failure (auxiliary `pip install commitizen`) cannot prevent it; contrary
to the original claim, a hook-type installation failure aborts `setup`
before the instructions are printed. -/
theorem setup_prints_instructions (env : Env) (o : Bool) (fs : FS)
    (hg : is_git_repo fs = true)
    (hcfg : (!(_copy_config env o fs).copied &&
      !(_copy_config env o fs).fs.targetConfig.isSome) = false)
    (hh : (_install_hooks env).1 = true) :
    ∃ pre post, (setup env o fs).out =
      pre ++ _print_dependency_instructions env (_copy_config env o fs).fs ++ post := by
  have hcond : ¬((_copy_config env o fs).copied = false ∧
      (_copy_config env o fs).fs.targetConfig = none) := by
    rintro ⟨h1, h2⟩
    rw [h1, h2] at hcfg
    simp at hcfg
  refine ⟨[Msg.startSetup, Msg.gitRepoDetectedSetup] ++ (_copy_config env o fs).out ++
      (_install_python_tools env).2 ++ (_install_hooks env).2,
    [Msg.setupComplete] ++ [Msg.hooksInstalledNote] ++ [Msg.tipCustomize1, Msg.tipCustomize2], ?_⟩
  simp [setup, hg, hcond, hh, List.append_assoc]

set_option maxHeartbeats 2000000 in
/-- Witness for C3 (amended): a concrete run satisfying the hypotheses. -/
theorem setup_prints_instructions_witness :
    ∃ pre post, (setup envAllOk false fsFresh).out =
      pre ++ _print_dependency_instructions envAllOk (_copy_config envAllOk false fsFresh).fs
        ++ post :=
  setup_prints_instructions envAllOk false fsFresh (by decide) (by decide) (by decide)

set_option maxHeartbeats 2000000 in
/-- Claim C4, counterexample: `badTemplate` contains the JS/TS section
marker but not the branch-naming marker; the claim predicts the content
is written unmodified with no failure signal, but `_copy_config`
(manifest absent) returns `False` — the `[1]` subscript after the second
`split` raises `IndexError`, caught by the blanket handler — and writes
nothing. -/
theorem C4_counterexample :
    containsSub jsMarker badTemplate = true ∧
      containsSub branchMarker badTemplate = false ∧
      (_copy_config envBadTemplate false fsFresh).copied = false ∧
      (_copy_config envBadTemplate false fsFresh).fs.targetConfig = none := by decide

/-- Claim C4 (amended): without a manifest, the JS/TS excision is a
textual operation between the two fixed markers; when the first marker
is missing the template content is written unmodified (no error, no
failure signal), but when the first marker is present and the second is
missing, `_copy_config` fails — the caught `IndexError` becomes the
error message and the `False` return — and nothing is written. -/
theorem copy_config_marker_excision (env : Env) (o : Bool) (fs : FS) (t : List Char)
    (htmpl : env.template = some t)
    (hpkg : fs.packageJson = false)
    (hskip : (fs.targetConfig.isSome && !o) = false)
    (hw : env.writeTargetOk = true) :
    (containsSub jsMarker t = false →
      (_copy_config env o fs).copied = true ∧
        (_copy_config env o fs).fs.targetConfig = some t) ∧
      (containsSub jsMarker t = true → containsSub branchMarker t = false →
        (_copy_config env o fs).copied = false ∧
          (_copy_config env o fs).fs.targetConfig = fs.targetConfig) := by
  constructor
  · intro hnc
    have hsp : pySplit jsMarker t = [t] := pySplit_of_not_contains (by decide) hnc
    simp [_copy_config, hskip, htmpl, hpkg, hsp, writeTarget, hw]
  · intro hc hnb
    obtain ⟨p0, p1, rest, hsp⟩ := pySplit_two_of_contains (by decide) hc
    have hp1mem : p1 ∈ pySplit jsMarker t := by
      rw [hsp]
      exact List.mem_cons_of_mem _ (List.mem_cons_self _ _)
    obtain ⟨a, b, hab⟩ := pySplit_mem_parts (by decide) hp1mem
    have hnb1 : containsSub branchMarker p1 = false := by
      cases hcb : containsSub branchMarker p1
      · rfl
      · exact absurd (containsSub_of_part hcb ⟨a, b, hab⟩) (by simp [hnb])
    have hsp2 : pySplit branchMarker p1 = [p1] := pySplit_of_not_contains (by decide) hnb1
    simp [_copy_config, hskip, htmpl, hpkg, hsp, hsp2]

/-- Witness for C4 (amended): a template with no markers is written
unmodified. -/
theorem copy_config_marker_excision_witness :
    (_copy_config envPlainTemplate false fsFresh).copied = true ∧
      (_copy_config envPlainTemplate false fsFresh).fs.targetConfig = some plainTemplate :=
  (copy_config_marker_excision envPlainTemplate false fsFresh plainTemplate rfl rfl
    (by decide) rfl).1 (by decide)

set_option maxHeartbeats 1000000 in
/-- Claim C5: for every setup run that writes the configuration file
(from the bundled template, modelled from the spec): when `package.json`
is absent the written content does not contain the JS/TS section marker
text, and when it is present the written content does contain it. -/
theorem copy_config_manifest_gating (env : Env) (o : Bool) (fs : FS)
    (htmpl : env.template = some templateContent)
    (hskip : (fs.targetConfig.isSome && !o) = false)
    (hw : env.writeTargetOk = true)
    (he : env.writeEslintOk = true)
    (hp : env.writePrettierOk = true) :
    ∃ w, (_copy_config env o fs).fs.targetConfig = some w ∧
      containsSub jsMarker w = fs.packageJson := by
  cases hpkg : fs.packageJson
  · have hsp : pySplit jsMarker templateContent = [part0, part1] := by decide
    have hsp2 : pySplit branchMarker part1 = [part1a, part1b] := by decide
    refine ⟨part0 ++ branchMarker ++ part1b, ?_, by decide⟩
    simp [_copy_config, hskip, htmpl, hpkg, hsp, hsp2, writeTarget, hw]
  · refine ⟨templateContent, ?_, by decide⟩
    have h1 : _copy_config env o fs = ensureEslint env o fs templateContent [] := by
      unfold _copy_config
      simp [hskip, htmpl, hpkg]
    rw [h1]
    unfold ensureEslint ensurePrettier writeTarget
    simp only [he, hp, hw, Bool.not_true, Bool.false_eq_true, if_false]
    split <;> split <;> simp

/-- Witness for C5: a concrete run without a manifest writes a config
that does not contain the JS/TS marker. -/
theorem copy_config_manifest_gating_witness :
    ∃ w, (_copy_config envAllOk false fsFresh).fs.targetConfig = some w ∧
      containsSub jsMarker w = fsFresh.packageJson :=
  copy_config_manifest_gating envAllOk false fsFresh rfl (by decide) rfl rfl rfl

/-- Adding names that do not match a glob pattern to the directory
cannot make `find_config_file` succeed. -/
theorem find_config_file_append (fs : FS) (names : List (List Char)) (pat : String)
    (h : find_config_file fs pat = false)
    (hn : ∀ n ∈ names, globMatch pat.data n = false) :
    find_config_file { fs with dotfiles := fs.dotfiles ++ names } pat = false := by
  unfold find_config_file at h ⊢
  simp only [List.any_append, Bool.or_eq_false_iff]
  refine ⟨h, ?_⟩
  rw [List.any_eq_false]
  intro n hmem
  simp [hn n hmem]

/-- Projection of `check` onto its aggregated warning bucket. -/
theorem check_warnings_eq (env : Env) (fs : FS) :
    (check env fs).warnings =
      (_check_git_repo fs).warnings ++ (_check_pre_commit env fs).warnings ++
        ((_check_hooks fs).warnings ++ (_check_tools env fs).warnings) := by
  unfold check
  simp

/-- When a manifest is present and no Prettier config file matches the
glob, the `check` command warns that the Prettier config is missing. -/
theorem check_reports_prettier_missing (env : Env) (fs : FS)
    (hpkg : fs.packageJson = true)
    (hnop : find_config_file fs PRETTIERRC_GLOB = false) :
    Msg.prettierConfigMissing ∈ (check env fs).warnings := by
  rw [check_warnings_eq]
  have hmem : Msg.prettierConfigMissing ∈ (_check_tools env fs).warnings := by
    simp [_check_tools, hpkg, _check_js_tools, hnop]
  simp [List.mem_append, hmem]

/-- When no Prettier config is present, `ensurePrettier` creates the
default `.prettierrc` (that exact name) and reports it. -/
theorem ensurePrettier_creates (env : Env) (o : Bool) (fs : FS) (c : List Char)
    (preOut : List Msg)
    (hp : env.writePrettierOk = true) (hw : env.writeTargetOk = true)
    (hnop : find_config_file fs PRETTIERRC_GLOB = false) :
    (ensurePrettier env o fs c preOut).fs.dotfiles = fs.dotfiles ++ [PRETTIERRC_NAME] ∧
      (ensurePrettier env o fs c preOut).fs.packageJson = fs.packageJson ∧
      Msg.createdPrettierrc ∈ (ensurePrettier env o fs c preOut).out := by
  unfold ensurePrettier writeTarget
  simp [hnop, hp, hw]

/-- When no Prettier config is present, `ensureEslint` ends with the
default `.prettierrc` created, alongside possibly a default
`.eslintrc.json` (and no other new name). -/
theorem ensureEslint_creates (env : Env) (o : Bool) (fs : FS) (c : List Char)
    (preOut : List Msg)
    (he : env.writeEslintOk = true) (hp : env.writePrettierOk = true)
    (hw : env.writeTargetOk = true)
    (hnop : find_config_file fs PRETTIERRC_GLOB = false) :
    ∃ mid, (ensureEslint env o fs c preOut).fs.dotfiles =
        fs.dotfiles ++ mid ++ [PRETTIERRC_NAME] ∧
      (∀ n ∈ mid, globMatch PRETTIERRC_GLOB.data n = false) ∧
      (ensureEslint env o fs c preOut).fs.packageJson = fs.packageJson ∧
      Msg.createdPrettierrc ∈ (ensureEslint env o fs c preOut).out := by
  unfold ensureEslint
  cases hfe : find_config_file fs ESLINTRC_GLOB
  · have hnop1 : find_config_file { fs with dotfiles := fs.dotfiles ++ [ESLINTRC_NAME] }
        PRETTIERRC_GLOB = false :=
      find_config_file_append fs [ESLINTRC_NAME] PRETTIERRC_GLOB hnop (by decide)
    obtain ⟨h1, h2, h3⟩ := ensurePrettier_creates env o
      { fs with dotfiles := fs.dotfiles ++ [ESLINTRC_NAME] } c
      (preOut ++ [Msg.createdEslintrc]) hp hw hnop1
    refine ⟨[ESLINTRC_NAME], ?_, by decide, ?_, ?_⟩ <;>
      simp_all [hfe, he, List.append_assoc]
  · obtain ⟨h1, h2, h3⟩ := ensurePrettier_creates env o fs c preOut hp hw hnop
    refine ⟨[], ?_, by decide, ?_, ?_⟩ <;> simp_all [hfe]

set_option maxHeartbeats 1000000 in
/-- Claim C10: the default Prettier config that setup creates is named
`.prettierrc`, which does not match the glob `.prettierrc.*` used by the
config-presence probe; after a run of `_copy_config` with a manifest and
no pre-existing Prettier config, `find_config_file` still returns false
and `check` still warns that the Prettier config is missing. -/
theorem prettier_config_glob_mismatch (env : Env) (o : Bool) (fs : FS)
    (hpkg : fs.packageJson = true)
    (hskip : (fs.targetConfig.isSome && !o) = false)
    (htmpl : env.template = some templateContent)
    (hw : env.writeTargetOk = true) (he : env.writeEslintOk = true)
    (hp : env.writePrettierOk = true)
    (hnop : find_config_file fs PRETTIERRC_GLOB = false) :
    globMatch PRETTIERRC_GLOB.data PRETTIERRC_NAME = false ∧
      Msg.createdPrettierrc ∈ (_copy_config env o fs).out ∧
      find_config_file (_copy_config env o fs).fs PRETTIERRC_GLOB = false ∧
      Msg.prettierConfigMissing ∈ (check env (_copy_config env o fs).fs).warnings := by
  have h1 : _copy_config env o fs = ensureEslint env o fs templateContent [] := by
    unfold _copy_config
    simp [hskip, htmpl, hpkg]
  rw [h1]
  obtain ⟨mid, hd, hmid, hpj, hmem⟩ :=
    ensureEslint_creates env o fs templateContent [] he hp hw hnop
  have hfind : find_config_file (ensureEslint env o fs templateContent []).fs
      PRETTIERRC_GLOB = false := by
    unfold find_config_file at hnop ⊢
    rw [hd]
    simp only [List.any_append, Bool.or_eq_false_iff]
    refine ⟨⟨hnop, ?_⟩, by decide⟩
    rw [List.any_eq_false]
    intro n hmemn
    simp [hmid n hmemn]
  refine ⟨by decide, hmem, hfind, ?_⟩
  exact check_reports_prettier_missing env _ (by rw [hpj]; exact hpkg) hfind

set_option maxHeartbeats 1000000 in
/-- Witness for C10: the concrete fresh JS-project directory. -/
theorem prettier_config_glob_mismatch_witness :
    Msg.createdPrettierrc ∈ (_copy_config envAllOk false fsFreshJs).out ∧
      find_config_file (_copy_config envAllOk false fsFreshJs).fs PRETTIERRC_GLOB = false ∧
      Msg.prettierConfigMissing ∈
        (check envAllOk (_copy_config envAllOk false fsFreshJs).fs).warnings :=
  ⟨(prettier_config_glob_mismatch envAllOk false fsFreshJs rfl (by decide) rfl rfl rfl rfl
      (by decide)).2.1,
    (prettier_config_glob_mismatch envAllOk false fsFreshJs rfl (by decide) rfl rfl rfl rfl
      (by decide)).2.2.1,
    (prettier_config_glob_mismatch envAllOk false fsFreshJs rfl (by decide) rfl rfl rfl rfl
      (by decide)).2.2.2⟩
